import Mathlib

/-!
Shallow embedding of the multi-tenant auth/jobs service.

Modules embedded (from the TypeScript source):
 - the JWT-based auth middleware (claims-only access gate) of
   `src/unnamed/part_000` / `src/unnamed/part_001`;
 - the store-confirming `verifyToken` helper of `src/unnamed/part_001`;
 - the jobs CRUD route `src/app/api/jobs/route.ts`;
 - the login route `src/app/api/auth/login/route.ts`;
 - the full registration route (second document of
   `src/app/api/auth/register/route.ts`, the variant taking
   username + additionalInfo).

JS strings are modelled by Lean `String`; the JS string operations used by
the code (`split`, `join`, `startsWith`) are modelled at the character-list
level. Machine-level concerns (UTF-16 vs UTF-8) are irrelevant here: the
code only splits on ASCII separators. `bcrypt` is modelled by an arbitrary
hash function parameter `bhash`, with `compare p h` modelled as
`bhash p == h`. `jsonwebtoken` is modelled by a token environment mapping
token strings to either a malformed blob or a signed claim set with an
embedded secret and expiry; `jwt.verify` succeeds exactly when the secret
matches and the current time is before the expiry.
-/

namespace AuthMT

/-- Model of JS `Array.prototype.join(",")` restricted to a one-character
separator, at the character-list level. -/
def jsJoin (sep : Char) (xs : List String) : String :=
  ⟨List.intercalate [sep] (xs.map String.data)⟩

/-- Model of JS `String.prototype.split(sep)` for a one-character separator,
at the character-list level: splits on every occurrence of the separator;
the empty string splits to `[""]`, as in JS. -/
def jsSplit (sep : Char) (s : String) : List String :=
  (s.data.splitOn sep).map (fun l => ⟨l⟩)

/-- Helper for `jsStartsWith`: character-list prefix test. -/
def strStartsWith : List Char → List Char → Bool
  | [], _ => true
  | _ :: _, [] => false
  | p :: ps, c :: cs => p == c && strStartsWith ps cs

/-- Model of JS `String.prototype.startsWith`. -/
def jsStartsWith (p s : String) : Bool :=
  strStartsWith p.data s.data

/-- The token claim set `{userId, email, userType}` signed into a JWT by
login and decoded by `jwt.verify`; also the shape of the actor record the
middleware attaches to the request. -/
structure Claims where
  userId : Nat
  email : String
  userType : String
deriving DecidableEq

/-- A well-formed signed token: its claims, the secret it was signed with,
and its expiry instant (seconds). `jwt.sign` with `expiresIn: "24h"`
produces `exp = now + 86400`. -/
structure SignedToken where
  claims : Claims
  secret : String
  exp : Nat
deriving DecidableEq

/-- What a token string denotes to the JWT library: either garbage
(malformed / wrong format) or a signed token. -/
inductive TokenInput where
  | malformed
  | signed (t : SignedToken)
deriving DecidableEq

/-- The ambient interpretation of token strings (stands for the JWT
library's parsing of the string). -/
def TokenEnv : Type := String → TokenInput

/-- Model of `jwt.verify(token, secret)`: fails (throws, here `none`) when
the string is malformed, the embedded secret does not match, or the current
time is at or past the expiry; otherwise returns the decoded claims. -/
def jwtVerify (env : TokenEnv) (secret : String) (now : Nat) (s : String) : Option Claims :=
  match env s with
  | .malformed => none
  | .signed t => if t.secret == secret && decide (now < t.exp) then some t.claims else none

/-- Model of `jwt.sign(claims, secret, { expiresIn: "24h" })`. -/
def jwtSign (secret : String) (now : Nat) (c : Claims) : SignedToken :=
  ⟨c, secret, now + 86400⟩

/-- `const JWT_SECRET = process.env.JWT_SECRET || "fallback_jwt_secret"`:
the process-wide signing secret, with the source's silent fallback when the
environment variable is unset or empty (JS `||` treats `""` as falsy). -/
def JWT_SECRET (env : Option String) : String :=
  match env with
  | some s => if s == "" then "fallback_jwt_secret" else s
  | none => "fallback_jwt_secret"

/-- `User` record of the credential store (Prisma `user` table):
id, username, email, password hash, and the kind tag stored as a string. -/
structure User where
  id : Nat
  username : String
  email : String
  password : String
  userType : String
deriving DecidableEq

/-- CONTRACTOR/TRAINER extension record; `expertise` is persisted as one
delimited string. -/
structure Trainer where
  userId : Nat
  expertise : String
  certification : String
  availableHours : Int
  hourlyRate : Int
deriving DecidableEq

/-- AGENCY/AGENT extension record. -/
structure Agent where
  userId : Nat
  agencyName : String
  licenseNumber : String
  specialization : String
  yearsExperience : Int
deriving DecidableEq

/-- INSTITUTION/UNIVERSITY extension record. -/
structure University where
  userId : Nat
  name : String
  location : String
  establishedYear : Int
  accreditation : String
deriving DecidableEq

/-- Job posting record (Prisma `job` table); `postedById` is the owning
identity's id. -/
structure Job where
  id : Nat
  jobTitle : String
  vacancies : Int
  location : String
  durationHours : Int
  remuneration : Int
  contact : String
  postedById : Nat
deriving DecidableEq

/-- The credential store's state: one list per table, plus the next
auto-generated ids. -/
structure DB where
  users : List User
  trainers : List Trainer
  agents : List Agent
  universities : List University
  jobs : List Job
  nextUserId : Nat
  nextJobId : Nat
deriving DecidableEq

/-- The empty store; generated ids start at 1 (so an id is never the JS
falsy value 0). -/
def emptyDB : DB :=
  ⟨[], [], [], [], [], 1, 1⟩

/-- Kind-specific profile payload as returned by login (for TRAINER the
delimited `expertise` string is reconstructed into a list). -/
inductive Profile where
  | uni (u : University)
  | ag (a : Agent)
  | tr (t : Trainer) (expertise : List String)
deriving DecidableEq

/-- The `user` object of a successful login response. -/
structure UserView where
  id : Nat
  email : String
  username : String
  userType : String
  profile : Profile
deriving DecidableEq

/-- Response bodies produced by the embedded routes. -/
inductive RespBody where
  | err (msg : String)
  | msg (m : String)
  | registered (userId : Nat)
  | registeredTrainer (u : User) (t : Trainer) (expertise : List String)
  | loginOk (m : String) (token : SignedToken) (u : UserView)
  | jobVal (j : Job)
deriving DecidableEq

/-- An HTTP-equivalent response: status code plus JSON body. -/
structure Response where
  status : Nat
  body : RespBody
deriving DecidableEq

/-- `NextResponse.json({ error: m }, { status })`. -/
def mkErr (status : Nat) (m : String) : Response :=
  ⟨status, .err m⟩

/-- Outcome of the access gate's checks, before the wrapped handler runs:
either a rejection response or the decoded actor to attach. -/
inductive GateResult where
  | reject (r : Response)
  | accept (c : Claims)
deriving DecidableEq

/-- The checking phase of `authMiddleware` (src/unnamed/part_000 and the
identical copy in part_001): require a `Bearer` Authorization header, decode
the token with `jwt.verify`, and enforce the `allowedTypes` allow-list on
the decoded `userType`. Note this decides from the token alone — no store
access. -/
def gateDecide (env : TokenEnv) (envSecret : Option String) (now : Nat)
    (allowedTypes : List String) (authHeader : Option String) : GateResult :=
  match authHeader with
  | none => .reject (mkErr 401 "Unauthorized")
  | some h =>
    if !(jsStartsWith "Bearer " h) then
      .reject (mkErr 401 "Unauthorized")
    else
      match jwtVerify env (JWT_SECRET envSecret) now ((jsSplit ' ' h).getD 1 "") with
      | none => .reject (mkErr 401 "Invalid token")
      | some decoded =>
        if !allowedTypes.isEmpty && !(allowedTypes.contains decoded.userType) then
          .reject (mkErr 403 "Forbidden")
        else
          .accept decoded

/-- `authMiddleware(allowedTypes)(handler)`: on rejection return the error
response without touching the handler; on acceptance attach the decoded
claims and invoke the wrapped handler. The handler threads a state of any
type `σ` (the store for the real routes, a counter for instrumentation). -/
def authMiddleware {σ : Type} (env : TokenEnv) (envSecret : Option String) (now : Nat)
    (allowedTypes : List String) (handler : Claims → σ → σ × Response)
    (authHeader : Option String) (st : σ) : σ × Response :=
  match gateDecide env envSecret now allowedTypes authHeader with
  | .reject r => (st, r)
  | .accept c => handler c st

/-- Number of times the wrapped operation runs for a given header, observed
by wrapping a counting handler. -/
def gateCount (env : TokenEnv) (envSecret : Option String) (now : Nat)
    (allowedTypes : List String) (authHeader : Option String) : Nat :=
  (authMiddleware env envSecret now allowedTypes
    (fun _ n => (n + 1, ⟨200, .msg "ok"⟩)) authHeader (0 : Nat)).1

/-- `verifyToken` of src/unnamed/part_001: verify the JWT, then confirm the
subject against the store (`prisma.user.findUnique({ where: { id } })`);
return the actor record built from the *store* row, or `null`. -/
def verifyToken (env : TokenEnv) (envSecret : Option String) (now : Nat)
    (db : DB) (token : Option String) : Option Claims :=
  match token with
  | none => none
  | some s =>
    match jwtVerify env (JWT_SECRET envSecret) now s with
    | none => none
    | some decoded =>
      match db.users.find? (fun u => u.id == decoded.userId) with
      | none => none
      | some user => some ⟨user.id, user.email, user.userType⟩

/-- JS truthiness of an optional string field (`!x` fails on missing and
on `""`). -/
def strPresent : Option String → Bool
  | some s => s != ""
  | none => false

/-- JS truthiness of an optional numeric field (`!x` fails on missing and
on 0). -/
def numPresent : Option Int → Bool
  | some n => n != 0
  | none => false

/-- JS truthiness of an optional id field. -/
def natPresent : Option Nat → Bool
  | some n => n != 0
  | none => false

/-- Request body of the jobs route. `postedById` stands for any
client-supplied owner field: the route's destructuring never reads it. -/
structure JobBody where
  id : Option Nat := none
  jobTitle : Option String := none
  vacancies : Option Int := none
  location : Option String := none
  durationHours : Option Int := none
  remuneration : Option Int := none
  contact : Option String := none
  postedById : Option Nat := none
deriving DecidableEq

/-- The jobs POST handler's required-field check
(`!jobTitle || !vacancies || ...` negated). -/
def allFieldsPresent (b : JobBody) : Bool :=
  strPresent b.jobTitle && numPresent b.vacancies && strPresent b.location &&
    numPresent b.durationHours && numPresent b.remuneration && strPresent b.contact

/-- The job row `prisma.job.create` builds: business fields from the body,
`postedById` from the attached actor (`user.userId`), id auto-generated. -/
def mkJobFrom (db : DB) (b : JobBody) (c : Claims) : Job :=
  ⟨db.nextJobId, b.jobTitle.getD "", b.vacancies.getD 0, b.location.getD "",
    b.durationHours.getD 0, b.remuneration.getD 0, b.contact.getD "", c.userId⟩

/-- Inner handler of jobs POST (after the gate): validate presence of all
business fields, then create the job owned by the attached actor. -/
def jobsCreateHandler (b : JobBody) (c : Claims) (db : DB) : DB × Response :=
  if !(allFieldsPresent b) then
    (db, mkErr 400 "All fields are required")
  else
    let j := mkJobFrom db b c
    ({db with jobs := db.jobs ++ [j], nextJobId := db.nextJobId + 1}, ⟨201, .jobVal j⟩)

/-- Inner handler of jobs PUT: require `id`; `findUnique` the job; a missing
job and a job owned by someone else take the same branch
(`!job || job.postedById !== user.userId`) and get the same 404 response;
otherwise apply a partial merge (Prisma skips `undefined` fields). -/
def jobsUpdateHandler (b : JobBody) (c : Claims) (db : DB) : DB × Response :=
  if !(natPresent b.id) then
    (db, mkErr 400 "Job ID is required")
  else
    let i := b.id.getD 0
    match db.jobs.find? (fun j => j.id == i) with
    | none => (db, mkErr 404 "Job not found or unauthorized")
    | some job =>
      if job.postedById != c.userId then
        (db, mkErr 404 "Job not found or unauthorized")
      else
        let j2 : Job :=
          { job with
            jobTitle := b.jobTitle.getD job.jobTitle,
            vacancies := b.vacancies.getD job.vacancies,
            location := b.location.getD job.location,
            durationHours := b.durationHours.getD job.durationHours,
            remuneration := b.remuneration.getD job.remuneration,
            contact := b.contact.getD job.contact }
        ({db with jobs := db.jobs.map (fun j => if j.id == i then j2 else j)},
          ⟨200, .jobVal j2⟩)

/-- Inner handler of jobs DELETE: same uniform not-found-or-unauthorized
check as PUT, then delete. -/
def jobsDeleteHandler (b : JobBody) (c : Claims) (db : DB) : DB × Response :=
  if !(natPresent b.id) then
    (db, mkErr 400 "Job ID is required")
  else
    let i := b.id.getD 0
    match db.jobs.find? (fun j => j.id == i) with
    | none => (db, mkErr 404 "Job not found or unauthorized")
    | some job =>
      if job.postedById != c.userId then
        (db, mkErr 404 "Job not found or unauthorized")
      else
        ({db with jobs := db.jobs.filter (fun j => j.id != i)},
          ⟨200, .msg "Job deleted successfully"⟩)

/-- The allow-list wired to the jobs mutation routes. -/
def jobsAllowed : List String :=
  ["AGENT", "UNIVERSITY"]

/-- `export const POST = authMiddleware(["AGENT", "UNIVERSITY"])(handler)`. -/
def jobsPOST (env : TokenEnv) (envSecret : Option String) (now : Nat)
    (authHeader : Option String) (b : JobBody) (db : DB) : DB × Response :=
  authMiddleware env envSecret now jobsAllowed (jobsCreateHandler b) authHeader db

/-- `export const PUT = authMiddleware(["AGENT", "UNIVERSITY"])(handler)`. -/
def jobsPUT (env : TokenEnv) (envSecret : Option String) (now : Nat)
    (authHeader : Option String) (b : JobBody) (db : DB) : DB × Response :=
  authMiddleware env envSecret now jobsAllowed (jobsUpdateHandler b) authHeader db

/-- `export const DELETE = authMiddleware(["AGENT", "UNIVERSITY"])(handler)`. -/
def jobsDELETE (env : TokenEnv) (envSecret : Option String) (now : Nat)
    (authHeader : Option String) (b : JobBody) (db : DB) : DB × Response :=
  authMiddleware env envSecret now jobsAllowed (jobsDeleteHandler b) authHeader db

/-- The `additionalInfo.expertise` value can be a JSON array or a string
(`Array.isArray(additionalInfo.expertise) ? ... .join(",") : ...`). -/
inductive ExpertiseVal where
  | arr (xs : List String)
  | str (s : String)
deriving DecidableEq

/-- The kind-shaped `additionalInfo` object; every field is optional at the
JSON level (absent fields are `undefined`). -/
structure AddInfo where
  expertise : Option ExpertiseVal := none
  certification : Option String := none
  availableHours : Option Int := none
  hourlyRate : Option Int := none
  name : Option String := none
  location : Option String := none
  establishedYear : Option Int := none
  accreditation : Option String := none
  agencyName : Option String := none
  licenseNumber : Option String := none
  specialization : Option String := none
  yearsExperience : Option Int := none
deriving DecidableEq

/-- Registration request body. -/
structure RegisterBody where
  username : Option String := none
  email : Option String := none
  password : Option String := none
  userType : Option String := none
  additionalInfo : Option AddInfo := none
deriving DecidableEq

/-- `const validUserTypes = ["UNIVERSITY", "AGENT", "TRAINER"]`. -/
def validUserTypes : List String :=
  ["UNIVERSITY", "AGENT", "TRAINER"]

/-- The required-field presence check of register
(`!username || !email || !password || !userType`, with JS falsiness). -/
def requiredMissing (b : RegisterBody) : Bool :=
  match b.username, b.email, b.password, b.userType with
  | some un, some em, some pw, some ut => un == "" || em == "" || pw == "" || ut == ""
  | _, _, _, _ => true

/-- The kind-specific extension-record creation step of register (the
`switch (userType)` over `prisma.university/agent/trainer.create`).
Returns `none` when the step throws: accessing a field of an absent
`additionalInfo` is a TypeError, and Prisma rejects a create whose required
field is `undefined`. For the TRAINER case an array-valued `expertise` is
joined with `","` for storage. A `userType` outside the three cases falls
through the switch without writing (validation rules it out earlier). -/
def createExtension (ut : String) (info : Option AddInfo) (uid : Nat) (db : DB) : Option DB :=
  match info with
  | none => none
  | some i =>
    if ut == "UNIVERSITY" then
      match i.name, i.location, i.establishedYear, i.accreditation with
      | some n, some l, some y, some a =>
        some {db with universities := db.universities ++ [⟨uid, n, l, y, a⟩]}
      | _, _, _, _ => none
    else if ut == "AGENT" then
      match i.agencyName, i.licenseNumber, i.specialization, i.yearsExperience with
      | some an, some ln, some sp, some ye =>
        some {db with agents := db.agents ++ [⟨uid, an, ln, sp, ye⟩]}
      | _, _, _, _ => none
    else if ut == "TRAINER" then
      match i.expertise, i.certification, i.availableHours, i.hourlyRate with
      | some e, some ce, some ah, some hr =>
        let stored :=
          match e with
          | .arr xs => jsJoin ',' xs
          | .str s => s
        some {db with trainers := db.trainers ++ [⟨uid, stored, ce, ah, hr⟩]}
      | _, _, _, _ => none
    else
      some db

/-- The full registration route (second document of
src/app/api/auth/register/route.ts): presence check, kind validity,
uniqueness of email OR username (`findFirst` with `OR`), then hash, create
the user, and create the kind extension. The user create and the extension
create are two independent store writes with no transaction: when the
extension step throws, the catch returns 500 but the user row persists.
On TRAINER success the route refetches the trainer and returns it with
`expertise` split back into a list. -/
def registerPOST (bhash : String → String) (db : DB) (b : RegisterBody) : DB × Response :=
  match b.username, b.email, b.password, b.userType with
  | some un, some em, some pw, some ut =>
    if un == "" || em == "" || pw == "" || ut == "" then
      (db, mkErr 400 "Username, email, password, and userType are required")
    else if !(validUserTypes.contains ut) then
      (db, mkErr 400 "Invalid user type")
    else if (db.users.find? (fun u => u.email == em || u.username == un)).isSome then
      (db, mkErr 400 "User with this email or username already exists")
    else
      let uid := db.nextUserId
      let newUser : User := ⟨uid, un, em, bhash pw, ut⟩
      let db1 : DB := {db with users := db.users ++ [newUser], nextUserId := uid + 1}
      match createExtension ut b.additionalInfo uid db1 with
      | none => (db1, mkErr 500 "Internal server error")
      | some db2 =>
        if ut == "TRAINER" then
          match db2.trainers.find? (fun t => t.userId == uid) with
          | some t => (db2, ⟨201, .registeredTrainer newUser t (jsSplit ',' t.expertise)⟩)
          | none => (db2, ⟨201, .registered uid⟩)
        else
          (db2, ⟨201, .registered uid⟩)
  | _, _, _, _ => (db, mkErr 400 "Username, email, password, and userType are required")

/-- Login request body. -/
structure LoginBody where
  email : Option String := none
  password : Option String := none
deriving DecidableEq

/-- The kind-specific profile fetch of login (the `switch (user.userType)`):
a missing extension row, or an unknown kind, throws (`none`, mapped to 500
by the route); the TRAINER branch splits the stored `expertise` string. -/
def fetchProfile (db : DB) (u : User) : Option Profile :=
  if u.userType == "UNIVERSITY" then
    (db.universities.find? (fun x => x.userId == u.id)).map .uni
  else if u.userType == "AGENT" then
    (db.agents.find? (fun x => x.userId == u.id)).map .ag
  else if u.userType == "TRAINER" then
    (db.trainers.find? (fun x => x.userId == u.id)).map
      (fun t => .tr t (jsSplit ',' t.expertise))
  else
    none

/-- The login route: presence check; `findUnique` by email; the unknown
email and the failing password comparison share one condition
(`!user || !(await bcrypt.compare(...))`) and one generic 401 response;
then profile fetch (absence → thrown → 500) and token issuance with a
24-hour expiry. -/
def loginPOST (bhash : String → String) (envSecret : Option String) (now : Nat)
    (db : DB) (b : LoginBody) : Response :=
  match b.email, b.password with
  | some em, some pw =>
    if em == "" || pw == "" then
      mkErr 400 "Email and password are required"
    else
      match db.users.find? (fun u => u.email == em) with
      | none => mkErr 401 "Invalid credentials"
      | some user =>
        if !(bhash pw == user.password) then
          mkErr 401 "Invalid credentials"
        else
          match fetchProfile db user with
          | none => mkErr 500 "Internal server error"
          | some prof =>
            ⟨200, .loginOk "Login successful"
              (jwtSign (JWT_SECRET envSecret) now ⟨user.id, user.email, user.userType⟩)
              ⟨user.id, user.email, user.username, user.userType, prof⟩⟩
  | _, _ => mkErr 400 "Email and password are required"

/-! Concrete sample data used to instantiate the general theorems. -/

/-- A sample bcrypt-style hash function for concrete instantiations. -/
def sampleHash (p : String) : String :=
  "h:" ++ p

/-- A sample token environment: `tokA` is an AGENT token and `tokT` a
TRAINER token, both signed with secret `"sec"` and expiring at 100;
`tokF` is signed with the source's fallback secret; everything else is
malformed. -/
def sampleEnv : TokenEnv := fun s =>
  if s = "tokA" then .signed ⟨⟨1, "a@x.com", "AGENT"⟩, "sec", 100⟩
  else if s = "tokT" then .signed ⟨⟨2, "t@x.com", "TRAINER"⟩, "sec", 100⟩
  else if s = "tokF" then .signed ⟨⟨1, "a@x.com", "AGENT"⟩, "fallback_jwt_secret", 100⟩
  else .malformed

/-- A sample wrapped operation over a counter state. -/
def sampleHandler : Claims → Nat → Nat × Response :=
  fun c n => (n + 7, ⟨200, .msg c.email⟩)

/-- A store with one AGENT identity (id 1, password hash of `"pw"`) and its
agency extension. -/
def storeDB : DB :=
  ⟨[⟨1, "u1", "real@x.com", "h:pw", "AGENT"⟩], [], [⟨1, "Acme", "L1", "S", 3⟩], [], [], 2, 1⟩

/-- `storeDB` extended with one job posting owned by identity 2. -/
def jobsDB : DB :=
  {storeDB with jobs := [⟨7, "Title", 1, "Loc", 2, 3, "c@x", 2⟩], nextJobId := 8}

/-- A jobs request body with only an id. -/
def jobBodyId (n : Nat) : JobBody :=
  {id := some n}

/-- A jobs create body with every business field present and a
client-supplied owner field. -/
def fullJobBody : JobBody :=
  { jobTitle := some "SE", vacancies := some 2, location := some "NY",
    durationHours := some 40, remuneration := some 100, contact := some "j@x",
    postedById := some 99 }

/-- A TRAINER registration body with the given expertise list. -/
def trainerBody (xs : List String) : RegisterBody :=
  { username := some "t1", email := some "t1@x.com", password := some "pw",
    userType := some "TRAINER",
    additionalInfo := some { expertise := some (.arr xs), certification := some "Certified",
                             availableHours := some 20, hourlyRate := some 50 } }

/-- A TRAINER registration body with no `additionalInfo` at all: the
extension-creation step throws on it. -/
def noInfoBody : RegisterBody :=
  { username := some "t1", email := some "t1@x.com", password := some "pw",
    userType := some "TRAINER" }

/-- A registration body whose email collides with `storeDB`'s identity 1
while its username is fresh. -/
def regConflictBody : RegisterBody :=
  { username := some "other", email := some "real@x.com", password := some "pw2",
    userType := some "TRAINER",
    additionalInfo := some { expertise := some (.arr ["X"]), certification := some "C",
                             availableHours := some 1, hourlyRate := some 2 } }

/-! Helper lemmas about the string models and the gate. -/

theorem strStartsWith_append (p rest : List Char) : strStartsWith p (p ++ rest) = true := by
  induction p with
  | nil => rfl
  | cons c cs ih => simp [strStartsWith, ih]

theorem jsStartsWith_bearer (s : String) :
    jsStartsWith "Bearer " ("Bearer " ++ s) = true := by
  show strStartsWith "Bearer ".data ("Bearer ".data ++ s.data) = true
  exact strStartsWith_append _ _

theorem jsSplit_bearer (s : String) (hs : ' ' ∉ s.data) :
    jsSplit ' ' ("Bearer " ++ s) = ["Bearer", s] := by
  have h1 : jsSplit ' ' ("Bearer " ++ s) =
      (List.splitOnP (fun c => c == ' ') (['B', 'e', 'a', 'r', 'e', 'r'] ++ ' ' :: s.data)).map
        (fun l => (⟨l⟩ : String)) := rfl
  rw [h1, List.splitOnP_first _ _ (by decide) ' ' (by decide) s.data,
    List.splitOnP_eq_single _ _ ?nosep]
  case nosep =>
    intro x hx
    simp only [beq_iff_eq]
    exact fun h => hs (h ▸ hx)
  rfl

theorem jsSplit_jsJoin (xs : List String) (hne : xs ≠ []) (hnc : ∀ x ∈ xs, ',' ∉ x.data) :
    jsSplit ',' (jsJoin ',' xs) = xs := by
  have h1 : jsSplit ',' (jsJoin ',' xs) =
      (List.splitOn ',' ([','].intercalate (xs.map String.data))).map
        (fun l => (⟨l⟩ : String)) := rfl
  rw [h1, List.splitOn_intercalate (xs.map String.data) ',' ?nc (by simpa using hne)]
  · rw [List.map_map]
    exact List.map_id xs
  case nc =>
    intro l hl
    obtain ⟨x, hx, rfl⟩ := List.mem_map.1 hl
    exact hnc x hx

theorem gateDecide_no_header (env : TokenEnv) (es : Option String) (now : Nat)
    (K : List String) :
    gateDecide env es now K none = .reject (mkErr 401 "Unauthorized") := rfl

theorem gateDecide_bad_scheme (env : TokenEnv) (es : Option String) (now : Nat)
    (K : List String) (h : String) (hb : jsStartsWith "Bearer " h = false) :
    gateDecide env es now K (some h) = .reject (mkErr 401 "Unauthorized") := by
  simp [gateDecide, hb]

theorem gateDecide_bad_token (env : TokenEnv) (es : Option String) (now : Nat)
    (K : List String) (h : String) (hb : jsStartsWith "Bearer " h = true)
    (hv : jwtVerify env (JWT_SECRET es) now ((jsSplit ' ' h).getD 1 "") = none) :
    gateDecide env es now K (some h) = .reject (mkErr 401 "Invalid token") := by
  simp only [gateDecide, hb, hv, Bool.not_true, Bool.false_eq_true, if_false]

theorem gateDecide_forbidden (env : TokenEnv) (es : Option String) (now : Nat)
    (K : List String) (h : String) (c : Claims) (hb : jsStartsWith "Bearer " h = true)
    (hv : jwtVerify env (JWT_SECRET es) now ((jsSplit ' ' h).getD 1 "") = some c)
    (hK : K ≠ []) (hc : K.contains c.userType = false) :
    gateDecide env es now K (some h) = .reject (mkErr 403 "Forbidden") := by
  cases K with
  | nil => exact absurd rfl hK
  | cons a as =>
    have hm : c.userType ∉ a :: as := by simpa using hc
    simp only [gateDecide, hb, hv, Bool.not_true, Bool.false_eq_true, if_false]
    simp
    exact ⟨fun h2 => hm (by simp [h2]), fun h2 => hm (by simp [h2])⟩

theorem gateDecide_ok (env : TokenEnv) (es : Option String) (now : Nat)
    (K : List String) (h : String) (c : Claims) (hb : jsStartsWith "Bearer " h = true)
    (hv : jwtVerify env (JWT_SECRET es) now ((jsSplit ' ' h).getD 1 "") = some c)
    (hall : K = [] ∨ K.contains c.userType = true) :
    gateDecide env es now K (some h) = .accept c := by
  rcases hall with rfl | hc
  · simp only [gateDecide, hb, hv, Bool.not_true, Bool.false_eq_true, if_false]
    simp
  · simp only [gateDecide, hb, hv, Bool.not_true, Bool.false_eq_true, if_false]
    simp
    intro _
    simpa using hc

theorem authMiddleware_reject {σ : Type} (env : TokenEnv) (es : Option String) (now : Nat)
    (K : List String) (handler : Claims → σ → σ × Response) (hdr : Option String) (st : σ)
    (r : Response) (h : gateDecide env es now K hdr = .reject r) :
    authMiddleware env es now K handler hdr st = (st, r) := by
  simp [authMiddleware, h]

theorem authMiddleware_accept {σ : Type} (env : TokenEnv) (es : Option String) (now : Nat)
    (K : List String) (handler : Claims → σ → σ × Response) (hdr : Option String) (st : σ)
    (c : Claims) (h : gateDecide env es now K hdr = .accept c) :
    authMiddleware env es now K handler hdr st = handler c st := by
  simp [authMiddleware, h]

theorem gateCount_reject (env : TokenEnv) (es : Option String) (now : Nat)
    (K : List String) (hdr : Option String) (r : Response)
    (h : gateDecide env es now K hdr = .reject r) :
    gateCount env es now K hdr = 0 := by
  simp [gateCount, authMiddleware, h]

theorem gateCount_accept (env : TokenEnv) (es : Option String) (now : Nat)
    (K : List String) (hdr : Option String) (c : Claims)
    (h : gateDecide env es now K hdr = .accept c) :
    gateCount env es now K hdr = 1 := by
  simp [gateCount, authMiddleware, h]

/-- C1: for every operation wrapped by the access gate with allow-list `K`:
a missing or non-`Bearer` Authorization input yields 401 Unauthorized and
the wrapped operation does not run; a token that fails verification yields
401 Invalid token without running the operation; a decoded actor whose kind
is outside a non-empty `K` yields 403 Forbidden without running the
operation; otherwise the decoded actor is attached and the wrapped
operation runs exactly once. -/
theorem access_gate_contract {σ : Type} (env : TokenEnv) (envSecret : Option String)
    (now : Nat) (K : List String) (handler : Claims → σ → σ × Response)
    (hdr : Option String) (st : σ) :
    ((hdr = none ∨ ∃ h, hdr = some h ∧ jsStartsWith "Bearer " h = false) →
       authMiddleware env envSecret now K handler hdr st = (st, mkErr 401 "Unauthorized") ∧
       gateCount env envSecret now K hdr = 0) ∧
    (∀ h, hdr = some h → jsStartsWith "Bearer " h = true →
       jwtVerify env (JWT_SECRET envSecret) now ((jsSplit ' ' h).getD 1 "") = none →
       authMiddleware env envSecret now K handler hdr st = (st, mkErr 401 "Invalid token") ∧
       gateCount env envSecret now K hdr = 0) ∧
    (∀ h c, hdr = some h → jsStartsWith "Bearer " h = true →
       jwtVerify env (JWT_SECRET envSecret) now ((jsSplit ' ' h).getD 1 "") = some c →
       K ≠ [] → K.contains c.userType = false →
       authMiddleware env envSecret now K handler hdr st = (st, mkErr 403 "Forbidden") ∧
       gateCount env envSecret now K hdr = 0) ∧
    (∀ h c, hdr = some h → jsStartsWith "Bearer " h = true →
       jwtVerify env (JWT_SECRET envSecret) now ((jsSplit ' ' h).getD 1 "") = some c →
       (K = [] ∨ K.contains c.userType = true) →
       authMiddleware env envSecret now K handler hdr st = handler c st ∧
       gateCount env envSecret now K hdr = 1) := by
  refine ⟨?noauth, ?badtok, ?forb, ?ok⟩
  case noauth =>
    rintro (rfl | ⟨h, rfl, hb⟩)
    · exact ⟨authMiddleware_reject _ _ _ _ _ _ _ _ (gateDecide_no_header env envSecret now K),
        gateCount_reject _ _ _ _ _ _ (gateDecide_no_header env envSecret now K)⟩
    · have hg := gateDecide_bad_scheme env envSecret now K h hb
      exact ⟨authMiddleware_reject _ _ _ _ _ _ _ _ hg, gateCount_reject _ _ _ _ _ _ hg⟩
  case badtok =>
    rintro h rfl hb hv
    have hg := gateDecide_bad_token env envSecret now K h hb hv
    exact ⟨authMiddleware_reject _ _ _ _ _ _ _ _ hg, gateCount_reject _ _ _ _ _ _ hg⟩
  case forb =>
    rintro h c rfl hb hv hK hc
    have hg := gateDecide_forbidden env envSecret now K h c hb hv hK hc
    exact ⟨authMiddleware_reject _ _ _ _ _ _ _ _ hg, gateCount_reject _ _ _ _ _ _ hg⟩
  case ok =>
    rintro h c rfl hb hv hall
    have hg := gateDecide_ok env envSecret now K h c hb hv hall
    exact ⟨authMiddleware_accept _ _ _ _ _ _ _ _ hg, gateCount_accept _ _ _ _ _ _ hg⟩

/-- C1 witness: on a valid AGENT token the gate attaches the decoded actor
and runs the wrapped operation exactly once. -/
theorem access_gate_contract_witness :
    authMiddleware sampleEnv (some "sec") 10 jobsAllowed sampleHandler (some "Bearer tokA") 0 =
      sampleHandler ⟨1, "a@x.com", "AGENT"⟩ 0 ∧
    gateCount sampleEnv (some "sec") 10 jobsAllowed (some "Bearer tokA") = 1 :=
  (access_gate_contract sampleEnv (some "sec") 10 jobsAllowed sampleHandler
      (some "Bearer tokA") 0).2.2.2 "Bearer tokA" ⟨1, "a@x.com", "AGENT"⟩ rfl (by decide)
      (by decide) (Or.inr (by decide))

/-- C2: the identity resolver returns null when the token is absent, is
rejected by verification, or decodes to a subject with no store record
(so a deleted identity resolves to null even before the token's expiry);
on success the actor fields come from the store record, not from the
token's claims. -/
theorem identity_resolver_contract (env : TokenEnv) (envSecret : Option String) (now : Nat)
    (db : DB) (tok : Option String) :
    (tok = none → verifyToken env envSecret now db tok = none) ∧
    (∀ s, tok = some s → jwtVerify env (JWT_SECRET envSecret) now s = none →
       verifyToken env envSecret now db tok = none) ∧
    (∀ s t, tok = some s → env s = .signed t → t.secret = JWT_SECRET envSecret →
       now < t.exp →
       db.users.find? (fun u => u.id == t.claims.userId) = none →
       verifyToken env envSecret now db tok = none) ∧
    (∀ s c u, tok = some s → jwtVerify env (JWT_SECRET envSecret) now s = some c →
       db.users.find? (fun u => u.id == c.userId) = some u →
       verifyToken env envSecret now db tok = some ⟨u.id, u.email, u.userType⟩) := by
  refine ⟨?none, ?bad, ?stale, ?ok⟩
  case none =>
    rintro rfl
    rfl
  case bad =>
    rintro s rfl hv
    simp [verifyToken, hv]
  case stale =>
    rintro s t rfl henv hsec hexp hfind
    have hv : jwtVerify env (JWT_SECRET envSecret) now s = some t.claims := by
      simp [jwtVerify, henv, hsec, hexp]
    simp [verifyToken, hv, hfind]
  case ok =>
    rintro s c u rfl hv hfind
    simp [verifyToken, hv, hfind]

/-- C2 witness: a valid unexpired token whose subject was deleted from the
store resolves to null, and a valid token resolves to the store record's
fields (here the store email differs from the token's email claim). -/
theorem identity_resolver_contract_witness :
    verifyToken sampleEnv (some "sec") 10 emptyDB (some "tokA") = none ∧
    verifyToken sampleEnv (some "sec") 10 storeDB (some "tokA") =
      some ⟨1, "real@x.com", "AGENT"⟩ :=
  ⟨(identity_resolver_contract sampleEnv (some "sec") 10 emptyDB (some "tokA")).2.2.1
      "tokA" ⟨⟨1, "a@x.com", "AGENT"⟩, "sec", 100⟩ rfl (by decide) (by decide) (by decide)
      (by decide),
    (identity_resolver_contract sampleEnv (some "sec") 10 storeDB (some "tokA")).2.2.2
      "tokA" ⟨1, "a@x.com", "AGENT"⟩ ⟨1, "u1", "real@x.com", "h:pw", "AGENT"⟩ rfl (by decide)
      (by decide)⟩

/-- C3: for an authenticated, kind-allowed actor, a jobs Update or Delete
request naming a nonexistent posting id and one naming a posting owned by a
different identity produce the identical 404 response with the identical
error body, and in both cases the store is unchanged. -/
theorem jobs_uniform_not_found (env : TokenEnv) (envSecret : Option String) (now : Nat)
    (db : DB) (hdr : Option String) (c : Claims) (b1 b2 : JobBody) (i1 i2 : Nat) (j : Job)
    (hacc : gateDecide env envSecret now jobsAllowed hdr = .accept c)
    (hb1 : b1.id = some i1) (hi1 : i1 ≠ 0)
    (hfind1 : db.jobs.find? (fun x => x.id == i1) = none)
    (hb2 : b2.id = some i2) (hi2 : i2 ≠ 0)
    (hfind2 : db.jobs.find? (fun x => x.id == i2) = some j)
    (hown : j.postedById ≠ c.userId) :
    jobsPUT env envSecret now hdr b1 db = (db, mkErr 404 "Job not found or unauthorized") ∧
    jobsPUT env envSecret now hdr b2 db = (db, mkErr 404 "Job not found or unauthorized") ∧
    jobsDELETE env envSecret now hdr b1 db = (db, mkErr 404 "Job not found or unauthorized") ∧
    jobsDELETE env envSecret now hdr b2 db = (db, mkErr 404 "Job not found or unauthorized") := by
  have hput1 : jobsPUT env envSecret now hdr b1 db = jobsUpdateHandler b1 c db :=
    authMiddleware_accept _ _ _ _ _ _ _ _ hacc
  have hput2 : jobsPUT env envSecret now hdr b2 db = jobsUpdateHandler b2 c db :=
    authMiddleware_accept _ _ _ _ _ _ _ _ hacc
  have hdel1 : jobsDELETE env envSecret now hdr b1 db = jobsDeleteHandler b1 c db :=
    authMiddleware_accept _ _ _ _ _ _ _ _ hacc
  have hdel2 : jobsDELETE env envSecret now hdr b2 db = jobsDeleteHandler b2 c db :=
    authMiddleware_accept _ _ _ _ _ _ _ _ hacc
  refine ⟨?_, ?_, ?_, ?_⟩
  · rw [hput1]
    simp [jobsUpdateHandler, natPresent, hb1, hi1, hfind1]
  · rw [hput2]
    simp [jobsUpdateHandler, natPresent, hb2, hi2, hfind2, hown]
  · rw [hdel1]
    simp [jobsDeleteHandler, natPresent, hb1, hi1, hfind1]
  · rw [hdel2]
    simp [jobsDeleteHandler, natPresent, hb2, hi2, hfind2, hown]

/-- C3 witness: with an AGENT actor (id 1), updating/deleting posting 9
(nonexistent) and posting 7 (owned by identity 2) all yield the same 404
body on an unchanged store. -/
theorem jobs_uniform_not_found_witness :
    jobsPUT sampleEnv (some "sec") 10 (some "Bearer tokA") (jobBodyId 9) jobsDB =
      (jobsDB, mkErr 404 "Job not found or unauthorized") ∧
    jobsPUT sampleEnv (some "sec") 10 (some "Bearer tokA") (jobBodyId 7) jobsDB =
      (jobsDB, mkErr 404 "Job not found or unauthorized") ∧
    jobsDELETE sampleEnv (some "sec") 10 (some "Bearer tokA") (jobBodyId 9) jobsDB =
      (jobsDB, mkErr 404 "Job not found or unauthorized") ∧
    jobsDELETE sampleEnv (some "sec") 10 (some "Bearer tokA") (jobBodyId 7) jobsDB =
      (jobsDB, mkErr 404 "Job not found or unauthorized") :=
  jobs_uniform_not_found sampleEnv (some "sec") 10 jobsDB (some "Bearer tokA")
    ⟨1, "a@x.com", "AGENT"⟩ (jobBodyId 9) (jobBodyId 7) 9 7
    ⟨7, "Title", 1, "Loc", 2, 3, "c@x", 2⟩ (by decide) rfl (by decide) (by decide) rfl
    (by decide) (by decide) (by decide)

/-- C4: with a valid token, a TRAINER actor calling jobs create is rejected
with 403 Forbidden and the store is unchanged; an AGENT or UNIVERSITY actor
with all business fields present gets 201 and a posting whose `postedById`
is the token actor's id, whatever owner field the request body carries. -/
theorem jobs_create_owner_from_token (env : TokenEnv) (envSecret : Option String) (now : Nat)
    (db : DB) (s : String) (t : SignedToken) (b : JobBody)
    (hsp : ' ' ∉ s.data) (henv : env s = .signed t)
    (hsec : t.secret = JWT_SECRET envSecret) (hexp : now < t.exp) :
    (t.claims.userType = "TRAINER" →
       jobsPOST env envSecret now (some ("Bearer " ++ s)) b db = (db, mkErr 403 "Forbidden")) ∧
    ((t.claims.userType = "AGENT" ∨ t.claims.userType = "UNIVERSITY") →
       allFieldsPresent b = true →
       ∀ o : Option Nat,
         jobsPOST env envSecret now (some ("Bearer " ++ s)) {b with postedById := o} db =
           ({db with
               jobs := db.jobs ++ [mkJobFrom db b t.claims],
               nextJobId := db.nextJobId + 1},
            ⟨201, .jobVal (mkJobFrom db b t.claims)⟩) ∧
         (mkJobFrom db b t.claims).postedById = t.claims.userId) := by
  have hv : jwtVerify env (JWT_SECRET envSecret) now
      ((jsSplit ' ' ("Bearer " ++ s)).getD 1 "") = some t.claims := by
    rw [jsSplit_bearer s hsp]
    simp [jwtVerify, henv, hsec, hexp]
  have hb := jsStartsWith_bearer s
  constructor
  · intro htr
    have hg := gateDecide_forbidden env envSecret now jobsAllowed _ t.claims hb hv
      (by decide) (by rw [htr]; decide)
    exact authMiddleware_reject _ _ _ _ _ _ _ _ hg
  · intro hk hfields o
    have hg := gateDecide_ok env envSecret now jobsAllowed _ t.claims hb hv
      (Or.inr (by rcases hk with h | h <;> rw [h] <;> decide))
    refine ⟨?_, rfl⟩
    have h1 : jobsPOST env envSecret now (some ("Bearer " ++ s)) {b with postedById := o} db
        = jobsCreateHandler {b with postedById := o} t.claims db :=
      authMiddleware_accept _ _ _ _ _ _ _ _ hg
    rw [h1]
    have h2 : allFieldsPresent {b with postedById := o} = true := hfields
    simp [jobsCreateHandler, h2]
    rfl

/-- C4 witness: the TRAINER token is rejected with 403 on an unchanged
store; the AGENT token creates posting 1 owned by actor 1 even though the
body carries owner field 99. -/
theorem jobs_create_owner_from_token_witness :
    jobsPOST sampleEnv (some "sec") 10 (some ("Bearer " ++ "tokT")) fullJobBody emptyDB =
      (emptyDB, mkErr 403 "Forbidden") ∧
    (jobsPOST sampleEnv (some "sec") 10 (some ("Bearer " ++ "tokA"))
        {fullJobBody with postedById := some 99} emptyDB =
      ({emptyDB with
          jobs := emptyDB.jobs ++ [mkJobFrom emptyDB fullJobBody ⟨1, "a@x.com", "AGENT"⟩],
          nextJobId := emptyDB.nextJobId + 1},
       ⟨201, .jobVal (mkJobFrom emptyDB fullJobBody ⟨1, "a@x.com", "AGENT"⟩)⟩) ∧
     (mkJobFrom emptyDB fullJobBody ⟨1, "a@x.com", "AGENT"⟩).postedById = 1) :=
  ⟨(jobs_create_owner_from_token sampleEnv (some "sec") 10 emptyDB "tokT"
      ⟨⟨2, "t@x.com", "TRAINER"⟩, "sec", 100⟩ fullJobBody (by decide) (by decide) (by decide)
      (by decide)).1 rfl,
   (jobs_create_owner_from_token sampleEnv (some "sec") 10 emptyDB "tokA"
      ⟨⟨1, "a@x.com", "AGENT"⟩, "sec", 100⟩ fullJobBody (by decide) (by decide) (by decide)
      (by decide)).2 (Or.inl rfl) (by decide) (some 99)⟩

/-- C10: the gate wired to the jobs POST/PUT/DELETE routes decides from the
token alone: whatever the store contents, a gate rejection yields that
rejection with the store untouched and a gate acceptance hands the decoded
token claims to the inner handler; in particular a valid, unexpired,
correctly signed token of an allowed kind is accepted and its embedded
claims attached even when the store has no record for its subject. -/
theorem jobs_gate_ignores_store (env : TokenEnv) (envSecret : Option String) (now : Nat)
    (hdr : Option String) (b : JobBody) :
    (∀ db r, gateDecide env envSecret now jobsAllowed hdr = .reject r →
       jobsPOST env envSecret now hdr b db = (db, r) ∧
       jobsPUT env envSecret now hdr b db = (db, r) ∧
       jobsDELETE env envSecret now hdr b db = (db, r)) ∧
    (∀ db c, gateDecide env envSecret now jobsAllowed hdr = .accept c →
       jobsPOST env envSecret now hdr b db = jobsCreateHandler b c db ∧
       jobsPUT env envSecret now hdr b db = jobsUpdateHandler b c db ∧
       jobsDELETE env envSecret now hdr b db = jobsDeleteHandler b c db) ∧
    (∀ s t db, hdr = some ("Bearer " ++ s) → ' ' ∉ s.data → env s = .signed t →
       t.secret = JWT_SECRET envSecret → now < t.exp →
       jobsAllowed.contains t.claims.userType = true →
       db.users.find? (fun u => u.id == t.claims.userId) = none →
       gateDecide env envSecret now jobsAllowed hdr = .accept t.claims ∧
       jobsPOST env envSecret now hdr b db = jobsCreateHandler b t.claims db) := by
  refine ⟨?rej, ?acc, ?del⟩
  case rej =>
    intro db r h
    exact ⟨authMiddleware_reject _ _ _ _ _ _ _ _ h, authMiddleware_reject _ _ _ _ _ _ _ _ h,
      authMiddleware_reject _ _ _ _ _ _ _ _ h⟩
  case acc =>
    intro db c h
    exact ⟨authMiddleware_accept _ _ _ _ _ _ _ _ h, authMiddleware_accept _ _ _ _ _ _ _ _ h,
      authMiddleware_accept _ _ _ _ _ _ _ _ h⟩
  case del =>
    rintro s t db rfl hsp henv hsec hexp hmem hfind
    have hv : jwtVerify env (JWT_SECRET envSecret) now
        ((jsSplit ' ' ("Bearer " ++ s)).getD 1 "") = some t.claims := by
      rw [jsSplit_bearer s hsp]
      simp [jwtVerify, henv, hsec, hexp]
    have hg := gateDecide_ok env envSecret now jobsAllowed _ t.claims (jsStartsWith_bearer s)
      hv (Or.inr hmem)
    exact ⟨hg, authMiddleware_accept _ _ _ _ _ _ _ _ hg⟩

/-- C10 witness: a valid AGENT token is accepted and its claims attached
over the empty store, where its subject has no record at all. -/
theorem jobs_gate_ignores_store_witness :
    gateDecide sampleEnv (some "sec") 10 jobsAllowed (some ("Bearer " ++ "tokA")) =
      .accept ⟨1, "a@x.com", "AGENT"⟩ ∧
    jobsPOST sampleEnv (some "sec") 10 (some ("Bearer " ++ "tokA")) (jobBodyId 7) emptyDB =
      jobsCreateHandler (jobBodyId 7) ⟨1, "a@x.com", "AGENT"⟩ emptyDB :=
  (jobs_gate_ignores_store sampleEnv (some "sec") 10 (some ("Bearer " ++ "tokA"))
      (jobBodyId 7)).2.2 "tokA" ⟨⟨1, "a@x.com", "AGENT"⟩, "sec", 100⟩ emptyDB rfl (by decide)
    (by decide) (by decide) (by decide) (by decide) (by decide)

/-- C7: on a well-formed login request, an unknown email and a known email
with a failing password comparison produce the very same response value:
status 401 with the generic invalid-credentials body. -/
theorem login_uniform_invalid_credentials (bhash : String → String) (envSecret : Option String)
    (now : Nat) (db : DB) (em pw : String) (hem : em ≠ "") (hpw : pw ≠ "") :
    (db.users.find? (fun u => u.email == em) = none →
       loginPOST bhash envSecret now db ⟨some em, some pw⟩ = mkErr 401 "Invalid credentials") ∧
    (∀ u, db.users.find? (fun x => x.email == em) = some u → bhash pw ≠ u.password →
       loginPOST bhash envSecret now db ⟨some em, some pw⟩ = mkErr 401 "Invalid credentials") := by
  constructor
  · intro hfind
    simp [loginPOST, hem, hpw, hfind]
  · intro u hfind hcmp
    simp [loginPOST, hem, hpw, hfind, hcmp]

/-- C7 witness: against `storeDB`, logging in with an unknown email and
with the known email but a wrong password return the identical 401 body. -/
theorem login_uniform_invalid_credentials_witness :
    loginPOST sampleHash (some "sec") 10 storeDB ⟨some "who@x.com", some "pw"⟩ =
      mkErr 401 "Invalid credentials" ∧
    loginPOST sampleHash (some "sec") 10 storeDB ⟨some "real@x.com", some "wrong"⟩ =
      mkErr 401 "Invalid credentials" :=
  ⟨(login_uniform_invalid_credentials sampleHash (some "sec") 10 storeDB "who@x.com" "pw"
      (by decide) (by decide)).1 (by decide),
    (login_uniform_invalid_credentials sampleHash (some "sec") 10 storeDB "real@x.com" "wrong"
      (by decide) (by decide)).2 ⟨1, "u1", "real@x.com", "h:pw", "AGENT"⟩ (by decide)
      (by decide)⟩

theorem registerPOST_required (bhash : String → String) (db : DB) (b : RegisterBody)
    (h : requiredMissing b = true) :
    registerPOST bhash db b =
      (db, mkErr 400 "Username, email, password, and userType are required") := by
  obtain ⟨uno, emo, pwo, uto, info⟩ := b
  rcases uno with _ | un <;> rcases emo with _ | em <;> rcases pwo with _ | pw <;>
    rcases uto with _ | ut <;>
    first
    | rfl
    | (simp only [requiredMissing] at h
       simp [registerPOST, h])

theorem requiredMissing_some (b : RegisterBody) (h : requiredMissing b = false) :
    ∃ un em pw ut, b.username = some un ∧ b.email = some em ∧ b.password = some pw ∧
      b.userType = some ut := by
  obtain ⟨uno, emo, pwo, uto, info⟩ := b
  rcases uno with _ | un <;> rcases emo with _ | em <;> rcases pwo with _ | pw <;>
    rcases uto with _ | ut <;> simp only [requiredMissing] at h <;>
    first
    | exact Bool.noConfusion h
    | exact ⟨un, em, pw, ut, rfl, rfl, rfl, rfl⟩

theorem registerPOST_invalid_kind (bhash : String → String) (db : DB) (b : RegisterBody)
    (ut : String) (hreq : requiredMissing b = false) (hut : b.userType = some ut)
    (hkind : validUserTypes.contains ut = false) :
    registerPOST bhash db b = (db, mkErr 400 "Invalid user type") := by
  obtain ⟨uno, emo, pwo, uto, info⟩ := b
  rcases uno with _ | un <;> rcases emo with _ | em <;> rcases pwo with _ | pw <;>
    rcases uto with _ | ut2 <;> simp only [requiredMissing] at hreq <;>
    first
    | exact Bool.noConfusion hreq
    | (injection hut with h4
       subst h4
       simp [registerPOST, hreq, hkind]
       exact fun hmem => absurd hmem (by simpa using hkind))

theorem registerPOST_conflict (bhash : String → String) (db : DB) (b : RegisterBody)
    (un em ut : String) (hreq : requiredMissing b = false)
    (hun : b.username = some un) (hem : b.email = some em) (hut : b.userType = some ut)
    (hkind : validUserTypes.contains ut = true)
    (hdup : (db.users.find? (fun u => u.email == em || u.username == un)).isSome = true) :
    registerPOST bhash db b =
      (db, mkErr 400 "User with this email or username already exists") := by
  obtain ⟨uno, emo, pwo, uto, info⟩ := b
  rcases uno with _ | un2 <;> rcases emo with _ | em2 <;> rcases pwo with _ | pw2 <;>
    rcases uto with _ | ut2 <;> simp only [requiredMissing] at hreq <;>
    first
    | exact Bool.noConfusion hreq
    | (injection hun with h1
       injection hem with h2
       injection hut with h4
       subst h1
       subst h2
       subst h4
       simp [registerPOST, hreq, hkind, hdup]
       exact fun hm => absurd (show ut2 ∈ validUserTypes by simpa using hkind) hm)

/-- C8: registration validates presence of username/email/password/kind
first (that error wins whatever else is wrong), then kind validity (that
error wins over conflicts), then uniqueness of email OR username against
the store; on a collision of either field it fails with the conflict error;
and on every such validation or conflict failure the store is unchanged and
the outcome does not depend on the password-hash function (no password is
hashed, no identity or extension record created). -/
theorem register_validation_contract (bh1 bh2 : String → String) (db : DB) (b : RegisterBody) :
    (requiredMissing b = true →
       registerPOST bh1 db b =
         (db, mkErr 400 "Username, email, password, and userType are required")) ∧
    (∀ ut, requiredMissing b = false → b.userType = some ut →
       validUserTypes.contains ut = false →
       registerPOST bh1 db b = (db, mkErr 400 "Invalid user type")) ∧
    (∀ un em ut, requiredMissing b = false → b.username = some un → b.email = some em →
       b.userType = some ut → validUserTypes.contains ut = true →
       (db.users.find? (fun u => u.email == em || u.username == un)).isSome = true →
       registerPOST bh1 db b =
         (db, mkErr 400 "User with this email or username already exists")) ∧
    ((requiredMissing b = true ∨
        (∃ ut, b.userType = some ut ∧ validUserTypes.contains ut = false) ∨
        (∃ un em, b.username = some un ∧ b.email = some em ∧
          (db.users.find? (fun u => u.email == em || u.username == un)).isSome = true)) →
       registerPOST bh1 db b = registerPOST bh2 db b ∧ (registerPOST bh1 db b).1 = db) := by
  refine ⟨registerPOST_required bh1 db b, ?kind, ?dup, ?indep⟩
  case kind =>
    intro ut hreq hut hkind
    exact registerPOST_invalid_kind bh1 db b ut hreq hut hkind
  case dup =>
    intro un em ut hreq hun hem hut hkind hdup
    exact registerPOST_conflict bh1 db b un em ut hreq hun hem hut hkind hdup
  case indep =>
    intro h
    by_cases hreq : requiredMissing b = true
    · rw [registerPOST_required bh1 db b hreq, registerPOST_required bh2 db b hreq]
      exact ⟨rfl, rfl⟩
    · have hreq' : requiredMissing b = false := by
        cases hb : requiredMissing b
        · rfl
        · exact absurd hb hreq
      rcases h with h | ⟨ut, hut, hk⟩ | ⟨un, em, hun, hem, hdup⟩
      · exact absurd h hreq
      · rw [registerPOST_invalid_kind bh1 db b ut hreq' hut hk,
          registerPOST_invalid_kind bh2 db b ut hreq' hut hk]
        exact ⟨rfl, rfl⟩
      · obtain ⟨un2, em2, pw2, ut2, h1, h2, h3, h4⟩ := requiredMissing_some b hreq'
        by_cases hk : validUserTypes.contains ut2 = true
        · rw [registerPOST_conflict bh1 db b un em ut2 hreq' hun hem h4 hk hdup,
            registerPOST_conflict bh2 db b un em ut2 hreq' hun hem h4 hk hdup]
          exact ⟨rfl, rfl⟩
        · have hk' : validUserTypes.contains ut2 = false := by
            cases hb : validUserTypes.contains ut2
            · rfl
            · exact absurd hb hk
          rw [registerPOST_invalid_kind bh1 db b ut2 hreq' h4 hk',
            registerPOST_invalid_kind bh2 db b ut2 hreq' h4 hk']
          exact ⟨rfl, rfl⟩

/-- C8 witness: registering with a fresh username but an email already in
the store fails with the conflict error, leaves the store unchanged, and
the outcome is the same under a different hash function. -/
theorem register_validation_contract_witness :
    registerPOST sampleHash storeDB regConflictBody =
      (storeDB, mkErr 400 "User with this email or username already exists") ∧
    registerPOST sampleHash storeDB regConflictBody =
      registerPOST (fun p => p) storeDB regConflictBody ∧
    (registerPOST sampleHash storeDB regConflictBody).1 = storeDB :=
  ⟨(register_validation_contract sampleHash (fun p => p) storeDB regConflictBody).2.2.1
      "other" "real@x.com" "TRAINER" (by decide) rfl rfl rfl (by decide) (by decide),
    ((register_validation_contract sampleHash (fun p => p) storeDB regConflictBody).2.2.2
      (Or.inr (Or.inr ⟨"other", "real@x.com", rfl, rfl, by decide⟩))).1,
    ((register_validation_contract sampleHash (fun p => p) storeDB regConflictBody).2.2.2
      (Or.inr (Or.inr ⟨"other", "real@x.com", rfl, rfl, by decide⟩))).2⟩

/-- C9 counterexample: for the empty expertise sequence (vacuously, every
element is delimiter-free) registration stores the comma-join `""`, but a
subsequent login reconstructs `[""]`, not the registered `[]` — the claimed
round-trip fails as stated. -/
theorem trainer_expertise_roundtrip_empty_counterexample :
    (registerPOST sampleHash emptyDB (trainerBody [])).1.trainers =
      [⟨1, "", "Certified", 20, 50⟩] ∧
    loginPOST sampleHash none 0 (registerPOST sampleHash emptyDB (trainerBody [])).1
        ⟨some "t1@x.com", some "pw"⟩ =
      ⟨200, .loginOk "Login successful"
        (jwtSign "fallback_jwt_secret" 0 ⟨1, "t1@x.com", "TRAINER"⟩)
        ⟨1, "t1@x.com", "t1", "TRAINER", .tr ⟨1, "", "Certified", 20, 50⟩ [""]⟩⟩ ∧
    ([""] : List String) ≠ [] := by
  decide

/-- C9 (amended): for every TRAINER registration whose expertise is a
nonempty ordered sequence of delimiter-free strings, the stored delimited
string is the comma-join of the sequence, and a subsequent login for that
identity reconstructs exactly the registered sequence. -/
theorem trainer_expertise_roundtrip (bhash : String → String) (envSecret : Option String)
    (now : Nat) (xs : List String) (hne : xs ≠ []) (hnc : ∀ x ∈ xs, ',' ∉ x.data) :
    (registerPOST bhash emptyDB (trainerBody xs)).1.trainers =
      [⟨1, jsJoin ',' xs, "Certified", 20, 50⟩] ∧
    loginPOST bhash envSecret now (registerPOST bhash emptyDB (trainerBody xs)).1
        ⟨some "t1@x.com", some "pw"⟩ =
      ⟨200, .loginOk "Login successful"
        (jwtSign (JWT_SECRET envSecret) now ⟨1, "t1@x.com", "TRAINER"⟩)
        ⟨1, "t1@x.com", "t1", "TRAINER", .tr ⟨1, jsJoin ',' xs, "Certified", 20, 50⟩ xs⟩⟩ := by
  have hreg : (registerPOST bhash emptyDB (trainerBody xs)).1 =
      ⟨[⟨1, "t1", "t1@x.com", bhash "pw", "TRAINER"⟩],
       [⟨1, jsJoin ',' xs, "Certified", 20, 50⟩], [], [], [], 2, 1⟩ := rfl
  constructor
  · rw [hreg]
  · rw [hreg]
    simp [loginPOST, fetchProfile, jsSplit_jsJoin xs hne hnc]

/-- C9 witness: `["Math", "Science"]` is stored as its comma-join and login
reconstructs exactly `["Math", "Science"]`. -/
theorem trainer_expertise_roundtrip_witness :
    (registerPOST sampleHash emptyDB (trainerBody ["Math", "Science"])).1.trainers =
      [⟨1, jsJoin ',' ["Math", "Science"], "Certified", 20, 50⟩] ∧
    loginPOST sampleHash none 0
        (registerPOST sampleHash emptyDB (trainerBody ["Math", "Science"])).1
        ⟨some "t1@x.com", some "pw"⟩ =
      ⟨200, .loginOk "Login successful"
        (jwtSign (JWT_SECRET none) 0 ⟨1, "t1@x.com", "TRAINER"⟩)
        ⟨1, "t1@x.com", "t1", "TRAINER",
          .tr ⟨1, jsJoin ',' ["Math", "Science"], "Certified", 20, 50⟩ ["Math", "Science"]⟩⟩ :=
  trainer_expertise_roundtrip sampleHash none 0 ["Math", "Science"] (by decide) (by decide)

/-- C5 (documents the source's gap): a TRAINER registration whose
extension-creation step fails (here: `additionalInfo` absent, so accessing
its fields throws after the identity row was written) returns 500 yet
leaves the identity persisted with no extension record of any kind — an
orphaned identity, violating the both-or-neither requirement. -/
theorem register_orphan_identity :
    (registerPOST sampleHash emptyDB noInfoBody).2 = mkErr 500 "Internal server error" ∧
    (registerPOST sampleHash emptyDB noInfoBody).1.users =
      [⟨1, "t1", "t1@x.com", sampleHash "pw", "TRAINER"⟩] ∧
    (registerPOST sampleHash emptyDB noInfoBody).1.trainers = [] ∧
    (registerPOST sampleHash emptyDB noInfoBody).1.agents = [] ∧
    (registerPOST sampleHash emptyDB noInfoBody).1.universities = [] := by
  decide

/-- C6 (documents the source's gap): with the environment's signing secret
unset, the code silently substitutes `"fallback_jwt_secret"`: login still
succeeds and issues a token signed with the fallback, and the gate accepts
a token signed with the fallback — nothing fails loudly. -/
theorem jwt_secret_silent_fallback :
    JWT_SECRET none = "fallback_jwt_secret" ∧
    loginPOST sampleHash none 0 storeDB ⟨some "real@x.com", some "pw"⟩ =
      ⟨200, .loginOk "Login successful"
        (jwtSign "fallback_jwt_secret" 0 ⟨1, "real@x.com", "AGENT"⟩)
        ⟨1, "real@x.com", "u1", "AGENT", .ag ⟨1, "Acme", "L1", "S", 3⟩⟩⟩ ∧
    gateDecide sampleEnv none 0 jobsAllowed (some "Bearer tokF") =
      .accept ⟨1, "a@x.com", "AGENT"⟩ := by
  decide

end AuthMT
